import Mathlib

/-!
Shallow embedding of the `llog` leveled-logging package (src/log.go, src/std.go).

Modelling conventions:
* Go byte strings are modelled as `List Char` (all data the package writes is a
  byte sequence; the relevant comparisons are on the byte `'\n'` and on ASCII
  level tokens, for which `List Char` is byte-faithful).
* `Level` is the Go `type Level int`, modelled as `Int`.
* A `mutexWriter` (the synchronized sink wrapper) is identified by a `Nat` id;
  its lock is elided (all modelled executions are single-threaded) and the calls
  made to `Write` are recorded in order in `LogState.writes` as `(sink id, bytes)`.
* `sync.Pool` is modelled by the multiset of buffers currently held by the pool
  (`LogState.pool`, as an ordered list); `bufPool.Put` appends to it.  The source
  calls `bufPool.New()` — the constructor field — which always allocates a fresh
  buffer, so no operation in the embedding removes anything from the pool.
* Nondeterministic environment inputs are passed explicitly: the wall-clock time
  (`Timestamp`), the stack-walk oracle `callerAt : Nat → Option (List Char × Nat)`
  standing for `runtime.Caller` (with `none` for `ok = false`), and `writeOk`,
  whether the underlying sink write returns a nil error.
* `panic` and `os.Exit` are modelled by the `Outcome` of a call.
-/

namespace Llog

/-- Go byte strings / byte slices, modelled as lists of characters. -/
abbrev Bytes := List Char

/-- `type Level int` (src/log.go line 37). -/
abbrev Level := Int

/-- `LevelError Level = -2` (src/log.go line 41). -/
def LevelError : Level := -2

/-- `LevelWarning Level = -1` (src/log.go line 42). -/
def LevelWarning : Level := -1

/-- `LevelInfo Level = 0` (src/log.go line 43), the default log level. -/
def LevelInfo : Level := 0

/-- `LevelDebug Level = 1` (src/log.go line 44). -/
def LevelDebug : Level := 1

/-- `levelString` map together with `Level.String()` (src/log.go lines 47-56):
a Go map lookup yields the zero value `""` for any key not in the map. -/
def levelToken (level : Level) : Bytes :=
  if level = LevelError then "[E]".data
  else if level = LevelWarning then "[W]".data
  else if level = LevelInfo then "[I]".data
  else if level = LevelDebug then "[D]".data
  else []

/-- The `Logger` struct (src/log.go lines 59-65).  `out` is the identity of the
`mutexWriter` the logger holds a pointer to. -/
structure Logger where
  out : Nat
  level : Level
  tag : Bytes
  fileAndLine : Bool
deriving DecidableEq, Repr

/-- Mutable process state touched by the emission path: the buffer pool and the
sequence of `Write` calls issued to sinks (sink id with the bytes passed). -/
structure LogState where
  pool : List Bytes
  writes : List (Nat × Bytes)
deriving DecidableEq, Repr

/-- How a call to the logging package terminates: normal return, a Go `panic`,
or process termination via `os.Exit code`. -/
inductive Outcome where
  | ok : Outcome
  | panicked : Outcome
  | exited : Nat → Outcome
deriving DecidableEq, Repr

/-- A wall-clock instant, broken into the fields the header format prints. -/
structure Timestamp where
  year : Nat
  month : Nat
  day : Nat
  hour : Nat
  minute : Nat
  second : Nat
  milli : Nat
deriving DecidableEq, Repr

/-- Zero-pad a number to (at least) two digits, as Go `time` layout `01` etc. -/
def pad2 (n : Nat) : Bytes :=
  if n < 10 then '0' :: Nat.toDigits 10 n else Nat.toDigits 10 n

/-- Zero-pad a number to (at least) three digits, as Go `time` layout `000`. -/
def pad3 (n : Nat) : Bytes :=
  if n < 10 then '0' :: '0' :: Nat.toDigits 10 n
  else if n < 100 then '0' :: Nat.toDigits 10 n
  else Nat.toDigits 10 n

/-- Zero-pad a number to (at least) four digits, as Go `time` layout `2006`. -/
def pad4 (n : Nat) : Bytes :=
  if n < 10 then '0' :: '0' :: '0' :: Nat.toDigits 10 n
  else if n < 100 then '0' :: '0' :: Nat.toDigits 10 n
  else if n < 1000 then '0' :: Nat.toDigits 10 n
  else Nat.toDigits 10 n

/-- `time.Now().Format("2006/01/02 15:04:05.000 ")` (src/log.go line 89):
the millisecond-precision timestamp including the trailing space. -/
def Timestamp.format (t : Timestamp) : Bytes :=
  pad4 t.year ++ ['/'] ++ pad2 t.month ++ ['/'] ++ pad2 t.day ++ [' '] ++
  pad2 t.hour ++ [':'] ++ pad2 t.minute ++ [':'] ++ pad2 t.second ++ ['.'] ++
  pad3 t.milli ++ [' ']

/-- `Logger.formatHeader` (src/log.go lines 88-115).  `callerAt` is the
`runtime.Caller` oracle: the source consults it at skip depth 3 exactly. -/
def Logger.formatHeader (l : Logger) (level : Level) (ts : Timestamp)
    (callerAt : Nat → Option (Bytes × Nat)) : Bytes :=
  ts.format ++ levelToken level ++
  (if l.tag ≠ [] then '[' :: l.tag ++ [']', ' '] else []) ++
  (if l.fileAndLine then
    let fl := match callerAt 3 with
      | some fl => fl
      | none => ("???".data, 0)
    fl.1 ++ [':'] ++ Nat.toDigits 10 fl.2 ++ [' ']
  else [])

/-- `bufPool.New` (src/log.go lines 15-22): constructs a fresh empty buffer
(`make([]byte, 0, 1024)`; the backing capacity is not tracked, only content). -/
def bufPoolNew : Bytes := []

/-- `Logger.output` (src/log.go lines 117-136).  The source acquires its buffer
with `bufPool.New()` — the raw constructor, not `bufPool.Get()` — so the buffer
is always freshly allocated and the pool is never consumed; the deferred
`bufPool.Put(buf)` appends the buffer to the pool on every exit path, including
the `panic(err)` path, since deferred calls run during panic unwinding. -/
def Logger.output (l : Logger) (level : Level) (s : Bytes) (ts : Timestamp)
    (callerAt : Nat → Option (Bytes × Nat)) (writeOk : Bool) (st : LogState) :
    LogState × Outcome :=
  if level > l.level then (st, Outcome.ok)
  else
    let buf := bufPoolNew
    let buf := buf.take 0
    let buf := buf ++ l.formatHeader level ts callerAt
    let buf := buf ++ s
    let buf := if s.length = 0 ∨ s.getLast? ≠ some '\n' then buf ++ ['\n'] else buf
    let st := { st with writes := st.writes ++ [(l.out, buf)] }
    let st := { st with pool := st.pool ++ [buf] }
    (st, if writeOk then Outcome.ok else Outcome.panicked)

/-- `Logger.clone` (src/log.go lines 138-145). -/
def Logger.clone (l : Logger) : Logger :=
  { out := l.out, tag := l.tag, level := l.level, fileAndLine := l.fileAndLine }

/-- `Logger.WithTag` (src/log.go lines 147-151). -/
def Logger.WithTag (l : Logger) (tag : Bytes) : Logger :=
  { l.clone with tag := tag }

/-- `Logger.WithLevel` (src/log.go lines 153-157). -/
def Logger.WithLevel (l : Logger) (level : Level) : Logger :=
  { l.clone with level := level }

/-- `Logger.WithOutput` (src/log.go lines 159-165): wraps the given destination
in a brand-new `mutexWriter`; `newSink` is the identity of that new wrapper. -/
def Logger.WithOutput (l : Logger) (newSink : Nat) : Logger :=
  { l.clone with out := newSink }

/-- `Logger.WithFileAndLine` (src/log.go lines 167-171). -/
def Logger.WithFileAndLine (l : Logger) (included : Bool) : Logger :=
  { l.clone with fileAndLine := included }

/-- `Logger.setLevel` (src/log.go lines 71-73), modelled as state passing. -/
def Logger.setLevel (l : Logger) (level : Level) : Logger :=
  { l with level := level }

/-- Per-rune lowering of Go's `unicode.ToLower` (the Unicode simple case
mapping applied by `strings.ToLower`), modelled exactly on the code points that
can influence the comparisons in `setLevelString`: ASCII capitals fold as in
Go, and the only two non-ASCII code points whose simple lowercase mapping is an
ASCII character — U+0130 (Latin capital letter I with dot above, which lowers
to `i`) and U+212A (the Kelvin sign, which lowers to `k`) — are mapped as Go
maps them.  Every other code point is left unchanged; Go may lower such a code
point to a different non-ASCII code point, but under either mapping a string
containing a non-ASCII code point never equals one of the eight all-ASCII
tokens of the `switch`, so the embedded `setLevelString` agrees with the
program on every input. -/
def toLowerGo (c : Char) : Char :=
  if 65 ≤ c.toNat ∧ c.toNat ≤ 90 then Char.ofNat (c.toNat + 32)
  else if c.toNat = 0x130 then Char.ofNat 0x69
  else if c.toNat = 0x212A then Char.ofNat 0x6B
  else c

/-- `strings.ToLower` (as called at src/log.go line 76): the simple case
mapping `toLowerGo` applied to each rune. -/
def lowerBytes (s : Bytes) : Bytes := s.map toLowerGo

/-- `Logger.setLevelString` (src/log.go lines 75-86): the `switch` on
`strings.ToLower(s)`; no `default` case, so any other string changes nothing. -/
def Logger.setLevelString (l : Logger) (s : Bytes) : Logger :=
  let t := lowerBytes s
  if t = "error".data ∨ t = "e".data then l.setLevel LevelError
  else if t = "warning".data ∨ t = "w".data then l.setLevel LevelWarning
  else if t = "info".data ∨ t = "i".data then l.setLevel LevelInfo
  else if t = "debug".data ∨ t = "d".data then l.setLevel LevelDebug
  else l

/-- Operand universe for `fmt.Sprint`, restricted to the value kinds the spec's
examples use (strings and integers). -/
inductive GoValue where
  | str : Bytes → GoValue
  | int : Int → GoValue
deriving DecidableEq, Repr

/-- Whether a `fmt.Sprint` operand is a string. -/
def GoValue.isString : GoValue → Bool
  | .str _ => true
  | .int _ => false

/-- Decimal rendering of a Go `int`, as `fmt`'s default `%v` verb prints it. -/
def intToBytes (n : Int) : Bytes :=
  if n < 0 then '-' :: Nat.toDigits 10 n.natAbs else Nat.toDigits 10 n.toNat

/-- Default (`%v`) formatting of one `fmt.Sprint` operand. -/
def GoValue.formatValue : GoValue → Bytes
  | .str s => s
  | .int n => intToBytes n

/-- `fmt.Sprint` (as used at src/log.go lines 174, 182, 190, 198): operands are
concatenated, with a space added between two operands when neither is a string. -/
def sprint : List GoValue → Bytes
  | [] => []
  | [v] => v.formatValue
  | v :: w :: rest =>
      v.formatValue ++ (if !v.isString && !w.isString then [' '] else []) ++
        sprint (w :: rest)

/-- `Logger.Error` (src/log.go lines 173-175). -/
def Logger.Error (l : Logger) (vs : List GoValue) (ts : Timestamp)
    (callerAt : Nat → Option (Bytes × Nat)) (writeOk : Bool) (st : LogState) :
    LogState × Outcome :=
  l.output LevelError (sprint vs) ts callerAt writeOk st

/-- `Logger.Errorf` (src/log.go lines 177-179); the `fmt.Sprintf` result is
passed in as the already-formatted body `fmtd`. -/
def Logger.Errorf (l : Logger) (fmtd : Bytes) (ts : Timestamp)
    (callerAt : Nat → Option (Bytes × Nat)) (writeOk : Bool) (st : LogState) :
    LogState × Outcome :=
  l.output LevelError fmtd ts callerAt writeOk st

/-- `Logger.Warn` (src/log.go lines 181-183). -/
def Logger.Warn (l : Logger) (vs : List GoValue) (ts : Timestamp)
    (callerAt : Nat → Option (Bytes × Nat)) (writeOk : Bool) (st : LogState) :
    LogState × Outcome :=
  l.output LevelWarning (sprint vs) ts callerAt writeOk st

/-- `Logger.Warnf` (src/log.go lines 185-187). -/
def Logger.Warnf (l : Logger) (fmtd : Bytes) (ts : Timestamp)
    (callerAt : Nat → Option (Bytes × Nat)) (writeOk : Bool) (st : LogState) :
    LogState × Outcome :=
  l.output LevelWarning fmtd ts callerAt writeOk st

/-- `Logger.Info` (src/log.go lines 189-191). -/
def Logger.Info (l : Logger) (vs : List GoValue) (ts : Timestamp)
    (callerAt : Nat → Option (Bytes × Nat)) (writeOk : Bool) (st : LogState) :
    LogState × Outcome :=
  l.output LevelInfo (sprint vs) ts callerAt writeOk st

/-- `Logger.Infof` (src/log.go lines 193-195). -/
def Logger.Infof (l : Logger) (fmtd : Bytes) (ts : Timestamp)
    (callerAt : Nat → Option (Bytes × Nat)) (writeOk : Bool) (st : LogState) :
    LogState × Outcome :=
  l.output LevelInfo fmtd ts callerAt writeOk st

/-- `Logger.Debug` (src/log.go lines 197-199). -/
def Logger.Debug (l : Logger) (vs : List GoValue) (ts : Timestamp)
    (callerAt : Nat → Option (Bytes × Nat)) (writeOk : Bool) (st : LogState) :
    LogState × Outcome :=
  l.output LevelDebug (sprint vs) ts callerAt writeOk st

/-- `Logger.Debugf` (src/log.go lines 201-203). -/
def Logger.Debugf (l : Logger) (fmtd : Bytes) (ts : Timestamp)
    (callerAt : Nat → Option (Bytes × Nat)) (writeOk : Bool) (st : LogState) :
    LogState × Outcome :=
  l.output LevelDebug fmtd ts callerAt writeOk st

/-- `SetTag` (src/std.go lines 23-25): mutates the process-wide logger's `tag`
field in place, modelled as state passing on the `std` value. -/
def SetTag (std : Logger) (tag : Bytes) : Logger :=
  { std with tag := tag }

/-- `SetOutput` (src/std.go lines 27-31): replaces the process-wide logger's
sink with a newly wrapped `mutexWriter` (identity `newSink`). -/
def SetOutput (std : Logger) (newSink : Nat) : Logger :=
  { std with out := newSink }

/-- `SetLevelString` (src/std.go lines 33-35). -/
def SetLevelString (std : Logger) (s : Bytes) : Logger :=
  std.setLevelString s

/-- `SetLevel` (src/std.go lines 37-39). -/
def SetLevel (std : Logger) (level : Level) : Logger :=
  std.setLevel level

/-- `SetFileAndLine` (src/std.go lines 41-43). -/
def SetFileAndLine (std : Logger) (included : Bool) : Logger :=
  { std with fileAndLine := included }

/-- `Fatal` (src/std.go lines 93-96): emits through `output` at `LevelError`
and then calls `os.Exit(1)`; if `output` panics (write failure), the panic
propagates and `os.Exit(1)` is never reached. -/
def Fatal (std : Logger) (vs : List GoValue) (ts : Timestamp)
    (callerAt : Nat → Option (Bytes × Nat)) (writeOk : Bool) (st : LogState) :
    LogState × Outcome :=
  let r := std.output LevelError (sprint vs) ts callerAt writeOk st
  match r.2 with
  | Outcome.ok => (r.1, Outcome.exited 1)
  | o => (r.1, o)

/-- `Fatalf` (src/std.go lines 98-101), with the `fmt.Sprintf` result `fmtd`. -/
def Fatalf (std : Logger) (fmtd : Bytes) (ts : Timestamp)
    (callerAt : Nat → Option (Bytes × Nat)) (writeOk : Bool) (st : LogState) :
    LogState × Outcome :=
  let r := std.output LevelError fmtd ts callerAt writeOk st
  match r.2 with
  | Outcome.ok => (r.1, Outcome.exited 1)
  | o => (r.1, o)

end Llog

namespace Llog

/-! ## Helper lemmas about the emission path -/

/-- On a suppressed level the emission path is the identity on the state. -/
lemma output_suppressed (l : Logger) (level : Level) (s : Bytes) (ts : Timestamp)
    (callerAt : Nat → Option (Bytes × Nat)) (writeOk : Bool) (st : LogState)
    (h : level > l.level) :
    l.output level s ts callerAt writeOk st = (st, Outcome.ok) := by
  unfold Logger.output
  rw [if_pos h]

/-- On a visible level the emission path appends exactly one write call and one
pool entry, both holding the formatted line. -/
lemma output_emits (l : Logger) (level : Level) (s : Bytes) (ts : Timestamp)
    (callerAt : Nat → Option (Bytes × Nat)) (writeOk : Bool) (st : LogState)
    (h : level ≤ l.level) :
    l.output level s ts callerAt writeOk st =
      ({ pool := st.pool ++ [l.formatHeader level ts callerAt ++ s ++
            (if s.length = 0 ∨ s.getLast? ≠ some '\n' then ['\n'] else [])],
         writes := st.writes ++ [(l.out, l.formatHeader level ts callerAt ++ s ++
            (if s.length = 0 ∨ s.getLast? ≠ some '\n' then ['\n'] else []))] },
       if writeOk then Outcome.ok else Outcome.panicked) := by
  simp only [Logger.output, if_neg (not_lt.mpr h)]
  by_cases hc : s.length = 0 ∨ s.getLast? ≠ some '\n'
  · simp only [if_pos hc]
    simp only [bufPoolNew]
    simp only [List.take_nil]
    rw [List.nil_append]
  · simp only [if_neg hc]
    simp only [bufPoolNew]
    simp only [List.take_nil]
    rw [List.nil_append]
    rw [List.append_nil]

end Llog

namespace Llog

/-! ## Claim theorems -/

/-- C1: for every logger and every emission at level `L` with minimum level `M`,
if `L > M` numerically the emission returns immediately with the state unchanged
(no buffer acquisition, no pool traffic, zero sink write calls), and if `L ≤ M`
the message is formatted and exactly one write of the formatted line is issued
to the logger's sink: visibility is exactly the numeric comparison `L ≤ M`. -/
theorem level_filtering_numeric (l : Logger) (level : Level) (s : Bytes)
    (ts : Timestamp) (callerAt : Nat → Option (Bytes × Nat)) (writeOk : Bool)
    (st : LogState) :
    (level > l.level → l.output level s ts callerAt writeOk st = (st, Outcome.ok))
    ∧ (level ≤ l.level →
        (l.output level s ts callerAt writeOk st).1.writes
          = st.writes ++ [(l.out, l.formatHeader level ts callerAt ++ s ++
              (if s.length = 0 ∨ s.getLast? ≠ some '\n' then ['\n'] else []))]) := by
  constructor
  · intro hgt
    exact output_suppressed l level s ts callerAt writeOk st hgt
  · intro hle
    rw [output_emits l level s ts callerAt writeOk st hle]

/-- Witness for `level_filtering_numeric`: a Debug message is suppressed under
an Error minimum with the state untouched, and an Info message under an Info
minimum is written to the sink as one formatted line. -/
theorem level_filtering_numeric_witness :
    (Logger.mk 0 LevelError [] false).output LevelDebug "x".data
        (Timestamp.mk 2024 1 2 3 4 5 6) (fun _ => none) true (LogState.mk [] [])
      = (LogState.mk [] [], Outcome.ok)
    ∧ ((Logger.mk 0 LevelInfo [] false).output LevelInfo "x".data
        (Timestamp.mk 2024 1 2 3 4 5 6) (fun _ => none) true (LogState.mk [] [])).1.writes
      = [(0, "2024/01/02 03:04:05.006 [I]x\n".data)] := by
  constructor
  · exact (level_filtering_numeric _ _ _ _ _ _ _).1 (by decide)
  · rw [(level_filtering_numeric (Logger.mk 0 LevelInfo [] false) LevelInfo "x".data
        (Timestamp.mk 2024 1 2 3 4 5 6) (fun _ => none) true (LogState.mk [] [])).2 (by decide)]
    decide

/-- C2 (code bug): `Logger.output` acquires its buffer by calling the pool's
constructor `bufPool.New()` directly instead of checking one out with
`bufPool.Get()`, so a previously returned buffer stays in the pool forever and
its backing capacity is never reused; the deferred return to the pool still
happens. Concretely: starting with one buffer already in the pool, a visible
emission leaves that buffer in place (never checked out) and appends the
freshly allocated one. -/
theorem bufPool_never_reused_code_bug :
    ((Logger.mk 0 LevelInfo [] false).output LevelInfo "x".data
        (Timestamp.mk 2024 1 2 3 4 5 6) (fun _ => none) true
        (LogState.mk ["old".data] [])).1
      = LogState.mk ["old".data, "2024/01/02 03:04:05.006 [I]x\n".data]
          [(0, "2024/01/02 03:04:05.006 [I]x\n".data)] := by decide

end Llog

namespace Llog

/-- C5: each of `WithTag`, `WithLevel`, `WithFileAndLine`, `WithOutput` returns
a new `Logger` with exactly one field replaced and all other fields copied from
the receiver (the receiver, a pure value here, is untouched: the Go code writes
only to the freshly allocated clone).  The three scalar builders keep the
receiver's sink identity `l.out` (sharing the same `mutexWriter` instance),
while `WithOutput` installs the identity of the newly constructed wrapper. -/
theorem with_builders_replace_exactly_one_field (l : Logger) (tag : Bytes)
    (lv : Level) (sink : Nat) (b : Bool) :
    l.WithTag tag = Logger.mk l.out l.level tag l.fileAndLine
    ∧ l.WithLevel lv = Logger.mk l.out lv l.tag l.fileAndLine
    ∧ l.WithFileAndLine b = Logger.mk l.out l.level l.tag b
    ∧ l.WithOutput sink = Logger.mk sink l.level l.tag l.fileAndLine :=
  ⟨rfl, rfl, rfl, rfl⟩

/-- C6: on a visible emission, if the sink's `Write` returns an error the
emission path panics (halts) rather than returning; if the write succeeds,
control returns normally. -/
theorem write_failure_panics (l : Logger) (level : Level) (s : Bytes)
    (ts : Timestamp) (callerAt : Nat → Option (Bytes × Nat)) (st : LogState)
    (h : level ≤ l.level) :
    (l.output level s ts callerAt false st).2 = Outcome.panicked
    ∧ (l.output level s ts callerAt true st).2 = Outcome.ok := by
  constructor
  · rw [output_emits l level s ts callerAt false st h]
    rfl
  · rw [output_emits l level s ts callerAt true st h]
    rfl

/-- Witness for `write_failure_panics` at a concrete visible emission. -/
theorem write_failure_panics_witness :
    ((Logger.mk 0 LevelInfo [] false).output LevelInfo "x".data
        (Timestamp.mk 2024 1 2 3 4 5 6) (fun _ => none) false (LogState.mk [] [])).2
      = Outcome.panicked
    ∧ ((Logger.mk 0 LevelInfo [] false).output LevelInfo "x".data
        (Timestamp.mk 2024 1 2 3 4 5 6) (fun _ => none) true (LogState.mk [] [])).2
      = Outcome.ok :=
  write_failure_panics _ _ _ _ _ _ (by decide)

/-- C10: level filtering is purely numeric over the integer-valued `Level`
type: `WithLevel` accepts any integer, and for a logger whose minimum level is
numerically below `LevelError` every emission method — `Error` and `Errorf`
included — is suppressed with no state change. -/
theorem minimum_below_error_suppresses_all (l : Logger) (vs : List GoValue)
    (fmtd : Bytes) (ts : Timestamp) (callerAt : Nat → Option (Bytes × Nat))
    (writeOk : Bool) (st : LogState) (h : l.level < LevelError) :
    l.Error vs ts callerAt writeOk st = (st, Outcome.ok)
    ∧ l.Errorf fmtd ts callerAt writeOk st = (st, Outcome.ok)
    ∧ l.Warn vs ts callerAt writeOk st = (st, Outcome.ok)
    ∧ l.Warnf fmtd ts callerAt writeOk st = (st, Outcome.ok)
    ∧ l.Info vs ts callerAt writeOk st = (st, Outcome.ok)
    ∧ l.Infof fmtd ts callerAt writeOk st = (st, Outcome.ok)
    ∧ l.Debug vs ts callerAt writeOk st = (st, Outcome.ok)
    ∧ l.Debugf fmtd ts callerAt writeOk st = (st, Outcome.ok)
    ∧ ∀ lv : Level, l.WithLevel lv = Logger.mk l.out lv l.tag l.fileAndLine := by
  refine ⟨?_, ?_, ?_, ?_, ?_, ?_, ?_, ?_, fun lv => rfl⟩
  · exact output_suppressed _ _ _ _ _ _ _ h
  · exact output_suppressed _ _ _ _ _ _ _ h
  · exact output_suppressed _ _ _ _ _ _ _ (lt_trans h (by decide))
  · exact output_suppressed _ _ _ _ _ _ _ (lt_trans h (by decide))
  · exact output_suppressed _ _ _ _ _ _ _ (lt_trans h (by decide))
  · exact output_suppressed _ _ _ _ _ _ _ (lt_trans h (by decide))
  · exact output_suppressed _ _ _ _ _ _ _ (lt_trans h (by decide))
  · exact output_suppressed _ _ _ _ _ _ _ (lt_trans h (by decide))

/-- Witness for `minimum_below_error_suppresses_all`: with minimum level `-3`
(below `LevelError`), even `Error` writes nothing. -/
theorem minimum_below_error_suppresses_all_witness :
    (Logger.mk 0 (-3) [] false).Error [GoValue.str "x".data]
        (Timestamp.mk 2024 1 2 3 4 5 6) (fun _ => none) true (LogState.mk [] [])
      = (LogState.mk [] [], Outcome.ok) :=
  (minimum_below_error_suppresses_all (Logger.mk 0 (-3) [] false)
    [GoValue.str "x".data] [] (Timestamp.mk 2024 1 2 3 4 5 6) (fun _ => none)
    true (LogState.mk [] []) (by decide)).1

end Llog

namespace Llog

/-- C8: the string-based level setter maps case-insensitive tokens
`error`/`e`, `warning`/`w`, `info`/`i`, `debug`/`d` to the corresponding
level, touching no other field; every other input string — every string whose
`strings.ToLower` image is not one of the eight tokens — is a silent no-op
leaving the logger entirely unchanged.  Case-insensitivity is Go's
Unicode-based `strings.ToLower`, so for example `İ` (U+0130) lowers to `i`
and sets LevelInfo, as the witness demonstrates. -/
theorem setLevelString_token_mapping (l : Logger) (s : Bytes) :
    (lowerBytes s = "error".data ∨ lowerBytes s = "e".data →
        l.setLevelString s = Logger.mk l.out LevelError l.tag l.fileAndLine)
    ∧ (lowerBytes s = "warning".data ∨ lowerBytes s = "w".data →
        l.setLevelString s = Logger.mk l.out LevelWarning l.tag l.fileAndLine)
    ∧ (lowerBytes s = "info".data ∨ lowerBytes s = "i".data →
        l.setLevelString s = Logger.mk l.out LevelInfo l.tag l.fileAndLine)
    ∧ (lowerBytes s = "debug".data ∨ lowerBytes s = "d".data →
        l.setLevelString s = Logger.mk l.out LevelDebug l.tag l.fileAndLine)
    ∧ (lowerBytes s ≠ "error".data → lowerBytes s ≠ "e".data →
       lowerBytes s ≠ "warning".data → lowerBytes s ≠ "w".data →
       lowerBytes s ≠ "info".data → lowerBytes s ≠ "i".data →
       lowerBytes s ≠ "debug".data → lowerBytes s ≠ "d".data →
        l.setLevelString s = l) := by
  refine ⟨?_, ?_, ?_, ?_, ?_⟩
  · intro h
    simp only [Logger.setLevelString, Logger.setLevel]
    rw [if_pos h]
  · intro h
    simp only [Logger.setLevelString, Logger.setLevel]
    rw [if_neg ?_, if_pos h]
    rcases h with h | h <;> rw [h] <;> decide
  · intro h
    simp only [Logger.setLevelString, Logger.setLevel]
    rw [if_neg ?_, if_neg ?_, if_pos h]
    all_goals rcases h with h | h <;> rw [h] <;> decide
  · intro h
    simp only [Logger.setLevelString, Logger.setLevel]
    rw [if_neg ?_, if_neg ?_, if_neg ?_, if_pos h]
    all_goals rcases h with h | h <;> rw [h] <;> decide
  · intro h1 h2 h3 h4 h5 h6 h7 h8
    simp only [Logger.setLevelString]
    rw [if_neg (not_or.mpr ⟨h1, h2⟩), if_neg (not_or.mpr ⟨h3, h4⟩),
        if_neg (not_or.mpr ⟨h5, h6⟩), if_neg (not_or.mpr ⟨h7, h8⟩)]

/-- Witness for `setLevelString_token_mapping`: `"E"` and `"WaRnInG"` map to
their levels case-insensitively, the non-ASCII `"İ"` (U+0130) lowers to `"i"`
under the Unicode simple case mapping and sets LevelInfo, and `"bogus"`
changes nothing. -/
theorem setLevelString_token_mapping_witness :
    (Logger.mk 7 LevelInfo [] false).setLevelString "E".data
      = Logger.mk 7 LevelError [] false
    ∧ (Logger.mk 7 LevelInfo [] false).setLevelString "WaRnInG".data
      = Logger.mk 7 LevelWarning [] false
    ∧ (Logger.mk 7 LevelDebug [] false).setLevelString "İ".data
      = Logger.mk 7 LevelInfo [] false
    ∧ (Logger.mk 7 LevelDebug [] false).setLevelString "bogus".data
      = Logger.mk 7 LevelDebug [] false := by
  refine ⟨?_, ?_, ?_, ?_⟩
  · exact (setLevelString_token_mapping _ _).1 (Or.inr (by decide))
  · exact (setLevelString_token_mapping _ _).2.1 (Or.inl (by decide))
  · exact (setLevelString_token_mapping _ _).2.2.1 (Or.inr (by decide))
  · exact (setLevelString_token_mapping _ _).2.2.2.2 (by decide) (by decide)
      (by decide) (by decide) (by decide) (by decide) (by decide) (by decide)

/-- C7 counterexample: when the sink write fails, `Fatal` does not terminate
with exit status 1 — the panic raised inside the emission path propagates
before `os.Exit(1)` is reached, so the claim's "regardless of whether the
write succeeded" is false at this input. -/
theorem fatal_exit_status_counterexample :
    (Fatal (Logger.mk 0 LevelInfo [] false) [GoValue.str "x".data]
        (Timestamp.mk 2024 1 2 3 4 5 6) (fun _ => none) false (LogState.mk [] [])).2
      = Outcome.panicked
    ∧ Outcome.panicked ≠ Outcome.exited 1 := by decide

/-- C7 amended: `Fatal`/`Fatalf` format and emit exactly as `Error`/`Errorf`
at the Error level (identical state effect for every write result), and then
terminate the process with exit status 1 whenever the write attempt returns
normally (successful write, or suppressed emission); when the write fails, the
emission path's panic propagates and the exit-status-1 termination is never
reached. -/
theorem fatal_behavior_amended (std : Logger) (vs : List GoValue) (fmtd : Bytes)
    (ts : Timestamp) (callerAt : Nat → Option (Bytes × Nat)) (st : LogState) :
    (∀ writeOk, (Fatal std vs ts callerAt writeOk st).1
        = (std.Error vs ts callerAt writeOk st).1)
    ∧ (∀ writeOk, (Fatalf std fmtd ts callerAt writeOk st).1
        = (std.Errorf fmtd ts callerAt writeOk st).1)
    ∧ (Fatal std vs ts callerAt true st).2 = Outcome.exited 1
    ∧ (Fatalf std fmtd ts callerAt true st).2 = Outcome.exited 1
    ∧ (Fatal std vs ts callerAt false st).2
        = (if LevelError ≤ std.level then Outcome.panicked else Outcome.exited 1)
    ∧ (Fatalf std fmtd ts callerAt false st).2
        = (if LevelError ≤ std.level then Outcome.panicked else Outcome.exited 1) := by
  by_cases hv : LevelError ≤ std.level
  · refine ⟨fun w => ?_, fun w => ?_, ?_, ?_, ?_, ?_⟩
    · simp only [Fatal, Logger.Error, output_emits std LevelError (sprint vs) ts callerAt w st hv]
      cases w <;> rfl
    · simp only [Fatalf, Logger.Errorf, output_emits std LevelError fmtd ts callerAt w st hv]
      cases w <;> rfl
    · simp only [Fatal, output_emits std LevelError (sprint vs) ts callerAt true st hv]
      rfl
    · simp only [Fatalf, output_emits std LevelError fmtd ts callerAt true st hv]
      rfl
    · rw [if_pos hv]
      simp only [Fatal, output_emits std LevelError (sprint vs) ts callerAt false st hv]
      rfl
    · rw [if_pos hv]
      simp only [Fatalf, output_emits std LevelError fmtd ts callerAt false st hv]
      rfl
  · have hgt : LevelError > std.level := not_le.mp hv
    refine ⟨fun w => ?_, fun w => ?_, ?_, ?_, ?_, ?_⟩
    · simp only [Fatal, Logger.Error, output_suppressed std LevelError (sprint vs) ts callerAt w st hgt]
    · simp only [Fatalf, Logger.Errorf, output_suppressed std LevelError fmtd ts callerAt w st hgt]
    · simp only [Fatal, output_suppressed std LevelError (sprint vs) ts callerAt true st hgt]
    · simp only [Fatalf, output_suppressed std LevelError fmtd ts callerAt true st hgt]
    · rw [if_neg hv]
      simp only [Fatal, output_suppressed std LevelError (sprint vs) ts callerAt false st hgt]
    · rw [if_neg hv]
      simp only [Fatalf, output_suppressed std LevelError fmtd ts callerAt false st hgt]

end Llog

namespace Llog

/-- C9: when call-site attribution is enabled the header depends on the stack
oracle only through skip depth 3 (the fixed frame count of
`runtime.Caller(3)`); when resolution at depth 3 yields `(file, line)` the
header ends with `file:line ` and when it fails the header ends with the
literal marker `???:0 `. -/
theorem callsite_skip3_resolution (l : Logger) (level : Level) (ts : Timestamp)
    (c1 c2 : Nat → Option (Bytes × Nat)) (h : l.fileAndLine = true) :
    (c1 3 = c2 3 → l.formatHeader level ts c1 = l.formatHeader level ts c2)
    ∧ (∀ f n, c1 3 = some (f, n) →
        l.formatHeader level ts c1
          = ts.format ++ levelToken level
            ++ (if l.tag ≠ [] then '[' :: l.tag ++ [']', ' '] else [])
            ++ (f ++ [':'] ++ Nat.toDigits 10 n ++ [' ']))
    ∧ (c1 3 = none →
        l.formatHeader level ts c1
          = ts.format ++ levelToken level
            ++ (if l.tag ≠ [] then '[' :: l.tag ++ [']', ' '] else [])
            ++ "???:0 ".data) := by
  refine ⟨?_, ?_, ?_⟩
  · intro hc
    simp only [Logger.formatHeader, hc]
  · intro f n hc
    simp only [Logger.formatHeader, hc, h, if_true]
  · intro hc
    simp only [Logger.formatHeader, hc, h, if_true]
    congr 1

/-- Witness for `callsite_skip3_resolution`: with attribution enabled, a
resolvable caller yields `a.go:7 ` and a failed resolution yields `???:0 `. -/
theorem callsite_skip3_resolution_witness :
    (Logger.mk 0 LevelInfo [] true).formatHeader LevelInfo
        (Timestamp.mk 2024 1 2 3 4 5 6) (fun _ => some ("a.go".data, 7))
      = "2024/01/02 03:04:05.006 [I]a.go:7 ".data
    ∧ (Logger.mk 0 LevelInfo [] true).formatHeader LevelInfo
        (Timestamp.mk 2024 1 2 3 4 5 6) (fun _ => none)
      = "2024/01/02 03:04:05.006 [I]???:0 ".data := by
  constructor
  · have h1 := (callsite_skip3_resolution (Logger.mk 0 LevelInfo [] true) LevelInfo
      (Timestamp.mk 2024 1 2 3 4 5 6) (fun _ => some ("a.go".data, 7))
      (fun _ => some ("a.go".data, 7)) rfl).2.1 "a.go".data 7 rfl
    exact h1.trans (by decide)
  · have h2 := (callsite_skip3_resolution (Logger.mk 0 LevelInfo [] true) LevelInfo
      (Timestamp.mk 2024 1 2 3 4 5 6) (fun _ => none)
      (fun _ => none) rfl).2.2 rfl
    exact h2.trans (by decide)

end Llog

namespace Llog

/-- C3 counterexample: with tag `worker` and minimum level Info,
`Info("job", 42, "done")` emits the body `job42done`, not `job 42 done` —
`fmt.Sprint` inserts a space only between two operands of which neither is a
string, so the string operands concatenate directly with `42`. -/
theorem info_variadic_example_counterexample :
    ((Logger.mk 0 LevelInfo "worker".data false).Info
        [GoValue.str "job".data, GoValue.int 42, GoValue.str "done".data]
        (Timestamp.mk 2024 1 2 3 4 5 6) (fun _ => none) true (LogState.mk [] [])).1.writes
      = [(0, "2024/01/02 03:04:05.006 [I][worker] job42done\n".data)]
    ∧ "2024/01/02 03:04:05.006 [I][worker] job42done\n".data
        ≠ "2024/01/02 03:04:05.006 [I][worker] job 42 done\n".data := by decide

/-- C3 amended: for a logger with tag `worker` and minimum level Info,
`Info("job", 42, "done")` emits exactly one line `TIMESTAMP [I][worker] job42done\n`
— the header is the millisecond timestamp, then `[I]`, then `[worker] `, and the
body is `job42done` because the variadic form inserts a separating space between
two consecutive operands only when neither is a string. -/
theorem info_variadic_example_amended (out : Nat) (ts : Timestamp)
    (callerAt : Nat → Option (Bytes × Nat)) (st : LogState) :
    ((Logger.mk out LevelInfo "worker".data false).Info
        [GoValue.str "job".data, GoValue.int 42, GoValue.str "done".data]
        ts callerAt true st).1.writes
      = st.writes ++ [(out, ts.format ++ "[I]".data ++ "[worker] ".data
          ++ "job42done".data ++ ['\n'])]
    ∧ sprint [GoValue.str "job".data, GoValue.int 42, GoValue.str "done".data]
        = "job42done".data := by
  have hs : sprint [GoValue.str "job".data, GoValue.int 42, GoValue.str "done".data]
      = "job42done".data := by decide
  constructor
  · simp only [Logger.Info]
    rw [hs, output_emits _ _ _ _ _ _ _ (le_refl LevelInfo)]
    simp only [Logger.formatHeader]
    dsimp only
    rw [(by decide : levelToken LevelInfo = "[I]".data)]
    rw [(by decide : (if ("worker".data : Bytes) ≠ [] then '[' :: "worker".data ++ [']', ' '] else []) = "[worker] ".data)]
    rw [if_neg (by decide : ¬ (false = true))]
    rw [(by decide : (if ("job42done".data : Bytes).length = 0 ∨ ("job42done".data : Bytes).getLast? ≠ some '\n' then ['\n'] else ([] : Bytes)) = ['\n'])]
    rw [List.append_nil]
  · exact hs

end Llog

namespace Llog

/-- The timestamp header chunk always ends with its trailing space. -/
lemma tsformat_getLast (t : Timestamp) : (Timestamp.format t).getLast? = some ' ' := by
  unfold Timestamp.format
  exact List.getLast?_concat _

/-- The formatted header always ends with a space or a closing bracket. -/
lemma header_getLast (l : Logger) (level : Level) (ts : Timestamp)
    (callerAt : Nat → Option (Bytes × Nat)) :
    (l.formatHeader level ts callerAt).getLast? = some ' '
    ∨ (l.formatHeader level ts callerAt).getLast? = some ']' := by
  unfold Logger.formatHeader
  by_cases hf : l.fileAndLine = true
  · rw [if_pos hf]
    rcases hc : callerAt 3 with _ | fl
    · simp only [hc]
      rw [← List.append_assoc, List.getLast?_concat]
      left
      rfl
    · simp only [hc]
      rw [← List.append_assoc, List.getLast?_concat]
      left
      rfl
  · rw [if_neg hf, List.append_nil]
    by_cases htag : l.tag ≠ []
    · rw [if_pos htag]
      rw [show ('[' :: l.tag ++ [']', ' ']) = ('[' :: l.tag ++ [']']) ++ [' '] from by simp]
      rw [← List.append_assoc, List.getLast?_concat]
      left
      rfl
    · rw [if_neg htag, List.append_nil]
      unfold levelToken
      split_ifs
      · right
        rw [List.getLast?_append_of_ne_nil _ (by decide : ("[E]".data : Bytes) ≠ [])]
        decide
      · right
        rw [List.getLast?_append_of_ne_nil _ (by decide : ("[W]".data : Bytes) ≠ [])]
        decide
      · right
        rw [List.getLast?_append_of_ne_nil _ (by decide : ("[I]".data : Bytes) ≠ [])]
        decide
      · right
        rw [List.getLast?_append_of_ne_nil _ (by decide : ("[D]".data : Bytes) ≠ [])]
        decide
      · rw [List.append_nil]
        left
        exact tsformat_getLast ts

/-- The formatted header never ends with a line terminator. -/
lemma header_getLast_ne_nl (l : Logger) (level : Level) (ts : Timestamp)
    (callerAt : Nat → Option (Bytes × Nat)) :
    (l.formatHeader level ts callerAt).getLast? ≠ some '\n' := by
  rcases header_getLast l level ts callerAt with h | h <;> rw [h] <;> decide

/-- C4 counterexample: for the message `"x\n\n"` — which already ends with two
line terminators — the emission path appends nothing and the emitted record
ends with two terminators, not exactly one, refuting "exactly one regardless of
whether the input already ended with one". -/
theorem single_terminator_counterexample :
    ((Logger.mk 0 LevelInfo [] false).output LevelInfo "x\n\n".data
        (Timestamp.mk 2024 1 2 3 4 5 6) (fun _ => none) true (LogState.mk [] [])).1.writes
      = [(0, "2024/01/02 03:04:05.006 [I]x\n\n".data)]
    ∧ ¬ (("2024/01/02 03:04:05.006 [I]x\n\n".data : Bytes).getLast? = some '\n'
          ∧ ("2024/01/02 03:04:05.006 [I]x\n\n".data : Bytes).dropLast.getLast? ≠ some '\n') := by
  decide

/-- C4 amended: a terminator is appended exactly when the body is empty or does
not already end with one; every emitted record ends with at least one
terminator, and it ends with exactly one (final character `\n`, the one before
it not `\n`) whenever the input message does not already end with two or more
consecutive terminators. -/
theorem single_terminator_amended (l : Logger) (level : Level) (s : Bytes)
    (ts : Timestamp) (callerAt : Nat → Option (Bytes × Nat)) (writeOk : Bool)
    (st : LogState) (hvis : level ≤ l.level) :
    ((l.output level s ts callerAt writeOk st).1.writes
       = st.writes ++ [(l.out, l.formatHeader level ts callerAt ++ s ++
           (if s.length = 0 ∨ s.getLast? ≠ some '\n' then ['\n'] else []))])
    ∧ (l.formatHeader level ts callerAt ++ s ++
         (if s.length = 0 ∨ s.getLast? ≠ some '\n' then ['\n'] else [])).getLast?
        = some '\n'
    ∧ (¬ (s.getLast? = some '\n' ∧ s.dropLast.getLast? = some '\n') →
        (l.formatHeader level ts callerAt ++ s ++
           (if s.length = 0 ∨ s.getLast? ≠ some '\n' then ['\n'] else [])).dropLast.getLast?
          ≠ some '\n') := by
  refine ⟨?_, ?_, ?_⟩
  · rw [output_emits l level s ts callerAt writeOk st hvis]
  · by_cases hc : s.length = 0 ∨ s.getLast? ≠ some '\n'
    · rw [if_pos hc, List.getLast?_concat]
    · rw [if_neg hc, List.append_nil]
      have hlast : s.getLast? = some '\n' := not_not.mp (not_or.mp hc).2
      have hne : s ≠ [] := by
        intro e
        rw [e] at hlast
        exact Option.noConfusion hlast
      rw [List.getLast?_append_of_ne_nil _ hne]
      exact hlast
  · intro hns
    by_cases hc : s.length = 0 ∨ s.getLast? ≠ some '\n'
    · rw [if_pos hc, List.dropLast_concat]
      by_cases hne : s = []
      · rw [hne, List.append_nil]
        exact header_getLast_ne_nl l level ts callerAt
      · rw [List.getLast?_append_of_ne_nil _ hne]
        rcases hc with hc | hc
        · exact absurd (List.length_eq_zero.mp hc) hne
        · exact hc
    · rw [if_neg hc, List.append_nil]
      have hlast : s.getLast? = some '\n' := not_not.mp (not_or.mp hc).2
      have hne : s ≠ [] := by
        intro e
        rw [e] at hlast
        exact Option.noConfusion hlast
      rw [List.dropLast_append_of_ne_nil _ hne]
      by_cases hdne : s.dropLast = []
      · rw [hdne, List.append_nil]
        exact header_getLast_ne_nl l level ts callerAt
      · rw [List.getLast?_append_of_ne_nil _ hdne]
        intro hd
        exact hns ⟨hlast, hd⟩

/-- Witness for `single_terminator_amended`: emitting `"x"` produces a record
that ends with exactly one line terminator. -/
theorem single_terminator_amended_witness :
    ((Logger.mk 0 LevelInfo [] false).output LevelInfo "x".data
        (Timestamp.mk 2024 1 2 3 4 5 6) (fun _ => none) true (LogState.mk [] [])).1.writes
      = [(0, "2024/01/02 03:04:05.006 [I]x\n".data)]
    ∧ ("2024/01/02 03:04:05.006 [I]x\n".data : Bytes).getLast? = some '\n'
    ∧ ("2024/01/02 03:04:05.006 [I]x\n".data : Bytes).dropLast.getLast? ≠ some '\n' := by
  have h := single_terminator_amended (Logger.mk 0 LevelInfo [] false) LevelInfo "x".data
    (Timestamp.mk 2024 1 2 3 4 5 6) (fun _ => none) true (LogState.mk [] []) (by decide)
  have e : (Logger.mk 0 LevelInfo [] false).formatHeader LevelInfo
        (Timestamp.mk 2024 1 2 3 4 5 6) (fun _ => none)
      ++ "x".data
      ++ (if ("x".data : Bytes).length = 0 ∨ ("x".data : Bytes).getLast? ≠ some '\n'
          then ['\n'] else [])
      = "2024/01/02 03:04:05.006 [I]x\n".data := by decide
  refine ⟨?_, ?_, ?_⟩
  · rw [h.1, e]
    rfl
  · rw [← e]
    exact h.2.1
  · rw [← e]
    exact h.2.2 (by decide)

end Llog
